import Mathlib

/-!
Shallow embedding of the StudyMaster AI client (a study-assistant chat
application built over a backend-as-a-service).

The two stateful components under verification are:

* the Conversation View (`ChatInterface`): holds the message list, the
  in-progress text input and a busy flag, and drives the central
  `sendMessage` operation (auth check, AI endpoint call, message insert,
  session-timestamp touch, refetch, toast);
* the Session Directory (`SessionDashboard`): holds the session list and the
  creation form, and drives `createSession` / `fetchSessions`.

Remote calls (auth lookup, AI invocation, row insert, timestamp update,
select) are modelled by an environment record supplying each call's outcome,
and every operation returns, besides the successor state, the ordered list of
effects it performed (network calls and toast notifications).  The
client-side code never throws past its own catch blocks, so each operation
is a total function on states.
-/

/-- The `message_type` column / the `messageType` argument of `sendMessage`:
one of `text`, `image`, `voice`. -/
inductive MessageType
  | text
  | image
  | voice
deriving DecidableEq, Repr

/-- A fetched `chat_messages` row as held in the view's `messages` list
(the `Message` interface of `ChatInterface`).  `created_at` is modelled as a
numeric timestamp. -/
structure Message where
  id : String
  content : String
  message_type : MessageType
  ai_response : String
  image_url : Option String
  created_at : Nat
deriving DecidableEq, Repr

/-- The record passed to the `chat_messages` insert inside `sendMessage`. -/
structure MessageRow where
  session_id : String
  user_id : String
  content : String
  message_type : MessageType
  ai_response : String
deriving DecidableEq, Repr

/-- A fetched `sessions` row as held in the dashboard's `sessions` list. -/
structure Session where
  id : String
  name : String
  system_prompt : String
  created_at : Nat
  updated_at : Nat
deriving DecidableEq, Repr

/-- The record passed to the `sessions` insert inside `createSession`. -/
structure SessionRow where
  name : String
  system_prompt : String
  user_id : String
deriving DecidableEq, Repr

/-- Toast styling: `destructive` is the error styling, `normal` the default. -/
inductive ToastVariant
  | normal
  | destructive
deriving DecidableEq, Repr

/-- A toast notification as produced by `useToast`. -/
structure Toast where
  title : String
  description : String
  toastVariant : ToastVariant
deriving DecidableEq, Repr

/-- One observable effect of an operation, in program order: each remote
call made (with its arguments) and each toast shown. -/
inductive Eff
  | getUser
  | invokeAI (message : String) (sessionId : String) (messageType : MessageType)
      (imageData : Option String) (systemPrompt : String)
  | insertChatMessage (row : MessageRow)
  | updateSessionTimestamp (sessionId : String)
  | selectChatMessages (sessionId : String) (ascending : Bool)
  | insertSession (row : SessionRow)
  | selectSessions (byUpdatedDescending : Bool)
  | toast (t : Toast)
deriving DecidableEq, Repr

/-- Whether an effect is a network call (everything except a toast). -/
def Eff.isNetwork : Eff → Bool
  | .toast _ => false
  | _ => true

/-- The `chat_messages` rows an effect trace attempted to insert. -/
def insertedRows (fx : List Eff) : List MessageRow :=
  fx.filterMap fun e =>
    match e with
    | .insertChatMessage r => some r
    | _ => none

/-- The `sessions` rows an effect trace attempted to insert. -/
def insertedSessions (fx : List Eff) : List SessionRow :=
  fx.filterMap fun e =>
    match e with
    | .insertSession r => some r
    | _ => none

/-- The toasts an effect trace showed. -/
def shownToasts (fx : List Eff) : List Toast :=
  fx.filterMap fun e =>
    match e with
    | .toast t => some t
    | _ => none

/-- The mutable state of one `ChatInterface` instance: the `messages` list,
the `currentMessage` input value, the `loading` busy flag, and the session
metadata fetched on mount. -/
structure ChatState where
  messages : List Message
  currentMessage : String
  loading : Bool
  sessionName : String
  systemPrompt : String
deriving DecidableEq, Repr

/-- Outcomes of the remote calls a single `sendMessage` run can make.
`user` is the `supabase.auth.getUser()` result; `aiOutcome` the
`gemini-chat` invocation; `insertOutcome` the `chat_messages` insert;
`updateOutcome` the `sessions` timestamp update (whose result the code
discards without checking); `fetchOutcome` the `chat_messages` select run
by `fetchMessages` (with `.ok` covering the `data || []` null case as
`.ok []`). -/
structure SendEnv where
  user : Option String
  aiOutcome : Except Unit String
  insertOutcome : Except Unit Unit
  updateOutcome : Except Unit Unit
  fetchOutcome : Except Unit (List Message)
deriving Repr

/-- JS `String.prototype.trim`: drop leading and trailing whitespace
(whitespace modelled by `Char.isWhitespace`). -/
def jsTrim (s : String) : String :=
  ⟨((s.data.dropWhile Char.isWhitespace).reverse.dropWhile Char.isWhitespace).reverse⟩

/-- JS `String.prototype.startsWith`. -/
def jsStartsWith (s p : String) : Bool :=
  List.isPrefixOf p.data s.data

/-- The error toast of `sendMessage`'s catch block. -/
def sendErrorToast : Toast :=
  { title := "Error", description := "Failed to send message",
    toastVariant := .destructive }

/-- The success toast at the end of `sendMessage`. -/
def sendSuccessToast : Toast :=
  { title := "Message sent", description := "AI response generated successfully",
    toastVariant := .normal }

/-- The guard at the top of `sendMessage`:
`if ((!content.trim() && !imageData) || loading) return;`.
`observedLoading` is the value of the `loading` closure variable the call
reads, which for calls issued from the current render equals the state's
flag. -/
def sendBlocked (content : String) (imageData : Option String)
    (observedLoading : Bool) : Bool :=
  (jsTrim content == "" && imageData.isNone) || observedLoading

/-- `fetchMessages`: select the session's messages ordered by `created_at`
ascending; on success replace the list wholesale (`setMessages(data || [])`),
on error only log (state untouched). -/
def fetchMessages (sessionId : String) (env : SendEnv) (s : ChatState) :
    ChatState × List Eff :=
  match env.fetchOutcome with
  | .ok data => ({ s with messages := data }, [.selectChatMessages sessionId true])
  | .error _ => (s, [.selectChatMessages sessionId true])

/-- The synchronous prefix of `sendMessage`, up to its first suspension
point: evaluate the guard against the observed `loading` value and, when it
passes, set the busy flag.  Returns the successor state and whether the send
started. -/
def sendMessageStart (observedLoading : Bool) (content : String)
    (imageData : Option String) (s : ChatState) : ChatState × Bool :=
  if sendBlocked content imageData observedLoading then (s, false)
  else ({ s with loading := true }, true)

/-- `sendMessage(content, messageType, imageData?)` of `ChatInterface`,
run to completion with the remote-call outcomes supplied by `env`, reading
the busy flag from the current state.  Mirrors the source line by line:
guard; `setLoading(true)`; auth check (`throw` when no user); `gemini-chat`
invocation (`throw` on `aiError`); `chat_messages` insert with
`content: content || 'Image uploaded'` (`throw` on `error`); `sessions`
timestamp update whose result is not checked; `setCurrentMessage("")`;
`fetchMessages()`; success toast; with the catch block showing the error
toast and the finally block clearing the flag. -/
def sendMessage (sessionId : String) (content : String) (messageType : MessageType)
    (imageData : Option String) (env : SendEnv) (s : ChatState) :
    ChatState × List Eff :=
  if sendBlocked content imageData s.loading then (s, [])
  else
    let s1 : ChatState := { s with loading := true }
    match env.user with
    | none =>
        ({ s1 with loading := false }, [.getUser, .toast sendErrorToast])
    | some uid =>
      match env.aiOutcome with
      | .error _ =>
          ({ s1 with loading := false },
           [.getUser,
            .invokeAI content sessionId messageType imageData s.systemPrompt,
            .toast sendErrorToast])
      | .ok resp =>
        let row : MessageRow :=
          { session_id := sessionId, user_id := uid,
            content := if content = "" then "Image uploaded" else content,
            message_type := messageType, ai_response := resp }
        match env.insertOutcome with
        | .error _ =>
            ({ s1 with loading := false },
             [.getUser,
              .invokeAI content sessionId messageType imageData s.systemPrompt,
              .insertChatMessage row,
              .toast sendErrorToast])
        | .ok _ =>
          let s2 : ChatState := { s1 with currentMessage := "" }
          let fr := fetchMessages sessionId env s2
          ({ fr.1 with loading := false },
           [.getUser,
            .invokeAI content sessionId messageType imageData s.systemPrompt,
            .insertChatMessage row,
            .updateSessionTimestamp sessionId]
            ++ fr.2 ++ [.toast sendSuccessToast])

/-- One clipboard item of a paste event: its MIME type and, when
`getAsFile()` yields a file, that file's base64 payload. -/
structure ClipItem where
  itemType : String
  fileData : Option String
deriving DecidableEq, Repr

/-- One `sendMessage` invocation issued by an event handler, recording its
arguments and the `loading` closure value it will observe. -/
structure SendCall where
  content : String
  messageType : MessageType
  imageData : Option String
  observedLoading : Bool
deriving DecidableEq, Repr

/-- `handlePasteImage`: for each clipboard item whose type starts with
`image/` and that yields a file, issue `sendMessage('', 'image', base64)`.
All the issued calls close over the same render-time `loading` value
`observedLoading`; none awaits the previous call's completion before its own
guard runs. -/
def handlePasteImage (observedLoading : Bool) (items : List ClipItem) :
    List SendCall :=
  items.filterMap fun it =>
    if jsStartsWith it.itemType "image/" then
      it.fileData.map fun d =>
        { content := "", messageType := .image, imageData := some d,
          observedLoading := observedLoading }
    else none

/-- The mutable state of one `SessionDashboard` instance. -/
structure DashState where
  sessions : List Session
  loading : Bool
  sessionName : String
  systemPrompt : String
  createDialogOpen : Bool
  creating : Bool
deriving DecidableEq, Repr

/-- The fixed default instruction text (the `systemPrompt` initial value in
`SessionDashboard` and the `system_prompt` column default in the
migration). -/
def defaultSystemPrompt : String :=
  "You are a helpful study assistant. Analyze the content provided and give clear, educational explanations."

/-- Outcomes of the remote calls a `createSession` run can make. -/
structure CreateEnv where
  user : Option String
  insertOutcome : Except Unit Unit
  fetchOutcome : Except Unit (List Session)
deriving Repr

/-- The validation toast shown when the session name trims to empty. -/
def nameRequiredToast : Toast :=
  { title := "Session name required",
    description := "Please enter a name for your study session",
    toastVariant := .destructive }

/-- The error toast of `createSession`'s catch block. -/
def createErrorToast : Toast :=
  { title := "Error", description := "Failed to create session",
    toastVariant := .destructive }

/-- The error toast of `fetchSessions`'s catch block. -/
def loadSessionsErrorToast : Toast :=
  { title := "Error", description := "Failed to load sessions",
    toastVariant := .destructive }

/-- `fetchSessions`: select all sessions ordered by `updated_at` descending;
replace the list on success, toast on failure; clear the dashboard loading
flag either way. -/
def fetchSessions (env : CreateEnv) (s : DashState) : DashState × List Eff :=
  match env.fetchOutcome with
  | .ok data =>
      ({ s with sessions := data, loading := false }, [.selectSessions true])
  | .error _ =>
      ({ s with loading := false },
       [.selectSessions true, .toast loadSessionsErrorToast])

/-- `createSession` of `SessionDashboard`: validate the trimmed name
(toast and return when empty, before any network call); `setCreating(true)`;
auth check; insert `(name, system_prompt, user_id)` taking both values
verbatim from the state; on success toast `` `${sessionName} is ready for
studying` ``, clear the name, reset the instruction field to the default,
close the dialog and re-run `fetchSessions`; catch toasts the error; finally
clears `creating`. -/
def createSession (env : CreateEnv) (s : DashState) : DashState × List Eff :=
  if jsTrim s.sessionName == "" then
    (s, [.toast nameRequiredToast])
  else
    let s1 : DashState := { s with creating := true }
    match env.user with
    | none =>
        ({ s1 with creating := false }, [.getUser, .toast createErrorToast])
    | some uid =>
      let row : SessionRow :=
        { name := s.sessionName, system_prompt := s.systemPrompt, user_id := uid }
      match env.insertOutcome with
      | .error _ =>
          ({ s1 with creating := false },
           [.getUser, .insertSession row, .toast createErrorToast])
      | .ok _ =>
        let okToast : Toast :=
          { title := "Session created",
            description := s.sessionName ++ " is ready for studying",
            toastVariant := .normal }
        let s2 : DashState :=
          { s1 with sessionName := "", systemPrompt := defaultSystemPrompt,
                    createDialogOpen := false }
        let fr := fetchSessions env s2
        ({ fr.1 with creating := false },
         [.getUser, .insertSession row, .toast okToast] ++ fr.2)

/-- A message list is in ascending creation order. -/
def chronological (l : List Message) : Prop :=
  l.Pairwise fun a b => a.created_at ≤ b.created_at

instance : DecidablePred chronological := fun l =>
  inferInstanceAs (Decidable (l.Pairwise _))

/-- Concrete fetched message used by witnesses. -/
def msgW : Message :=
  { id := "m1", content := "What is the derivative of x^2?",
    message_type := .text, ai_response := "2x", image_url := none,
    created_at := 5 }

/-- Concrete second fetched message used by witnesses. -/
def msgW2 : Message :=
  { id := "m2", content := "And of x^3?", message_type := .text,
    ai_response := "3x^2", image_url := none, created_at := 7 }

/-- Concrete idle chat state used by witnesses. -/
def chatW : ChatState :=
  { messages := [msgW], currentMessage := "And of x^3?", loading := false,
    sessionName := "Algebra Review", systemPrompt := defaultSystemPrompt }

/-- Concrete all-success send environment used by witnesses. -/
def sendEnvOk : SendEnv :=
  { user := some "u1", aiOutcome := .ok "3x^2", insertOutcome := .ok (),
    updateOutcome := .ok (), fetchOutcome := .ok [msgW, msgW2] }

/-- Concrete dashboard state used by witnesses. -/
def dashW : DashState :=
  { sessions := [], loading := false, sessionName := "Algebra Review",
    systemPrompt := defaultSystemPrompt, createDialogOpen := true,
    creating := false }

/-- Concrete all-success create environment used by witnesses. -/
def createEnvOk : CreateEnv :=
  { user := some "u1", insertOutcome := .ok (), fetchOutcome := .ok [] }

/-- Concrete send environment whose AI call fails, used by witnesses. -/
def sendEnvAiFail : SendEnv :=
  { sendEnvOk with aiOutcome := .error () }

/-- Concrete send environment whose timestamp update fails, used by
witnesses. -/
def sendEnvUpdFail : SendEnv :=
  { sendEnvOk with updateOutcome := .error () }

/-- Concrete send environment whose message fetch fails, used by
witnesses. -/
def sendEnvFetchFail : SendEnv :=
  { sendEnvOk with fetchOutcome := .error () }

/-- Concrete dashboard state with a cleared instruction field. -/
def dashBlankPrompt : DashState :=
  { dashW with systemPrompt := "" }

/-- Concrete dashboard state with a whitespace-padded session name. -/
def dashPadded : DashState :=
  { dashW with sessionName := "  Algebra  " }

/-- The guard of `sendMessage` does not fire when the flag read is clear
and the input is non-blank or carries an image. -/
theorem sendBlocked_false (content : String) (img : Option String)
    (h : ¬(jsTrim content = "" ∧ img = none)) :
    sendBlocked content img false = false := by
  cases h1 : (jsTrim content == "") <;> cases h2 : img.isNone <;>
    simp_all [sendBlocked, Option.isNone_iff_eq_none]

/-- `insertedRows` distributes over trace concatenation. -/
theorem insertedRows_append (a b : List Eff) :
    insertedRows (a ++ b) = insertedRows a ++ insertedRows b := by
  simp [insertedRows]

/-- A `fetchMessages` run never inserts a `chat_messages` row. -/
theorem fetchMessages_no_insert (sessionId : String) (env : SendEnv)
    (s : ChatState) :
    insertedRows (fetchMessages sessionId env s).2 = [] := by
  cases h : env.fetchOutcome <;> simp [fetchMessages, h, insertedRows]

/-- A `fetchMessages` run never shows a toast. -/
theorem fetchMessages_no_toast (sessionId : String) (env : SendEnv)
    (s : ChatState) :
    shownToasts (fetchMessages sessionId env s).2 = [] := by
  cases h : env.fetchOutcome <;> simp [fetchMessages, h, shownToasts]

/-- `shownToasts` distributes over trace concatenation. -/
theorem shownToasts_append (a b : List Eff) :
    shownToasts (a ++ b) = shownToasts a ++ shownToasts b := by
  simp [shownToasts]

/-- C1: if the remote AI endpoint call inside `sendMessage` fails, then no
`chat_messages` row is inserted, the busy flag ends clear, and the
in-progress input value and in-memory message list are unchanged — for
every content, kind, and optional image input. -/
theorem sendMessage_aiFailure_frame (sessionId content : String)
    (messageType : MessageType) (imageData : Option String)
    (env : SendEnv) (s : ChatState)
    (hload : s.loading = false) (hai : env.aiOutcome = .error ()) :
    (sendMessage sessionId content messageType imageData env s).1.loading = false ∧
    (sendMessage sessionId content messageType imageData env s).1.messages = s.messages ∧
    (sendMessage sessionId content messageType imageData env s).1.currentMessage
      = s.currentMessage ∧
    insertedRows (sendMessage sessionId content messageType imageData env s).2 = [] := by
  unfold sendMessage
  split
  · exact ⟨hload, rfl, rfl, rfl⟩
  · cases hu : env.user with
    | none => exact ⟨rfl, rfl, rfl, rfl⟩
    | some uid => rw [hai]; exact ⟨rfl, rfl, rfl, rfl⟩

/-- Witness for `sendMessage_aiFailure_frame` at a concrete input. -/
theorem sendMessage_aiFailure_frame_witness :
    (sendMessage "s1" "And of x^3?" .text none sendEnvAiFail chatW).1.loading = false ∧
    (sendMessage "s1" "And of x^3?" .text none sendEnvAiFail chatW).1.messages = [msgW] ∧
    (sendMessage "s1" "And of x^3?" .text none sendEnvAiFail chatW).1.currentMessage
      = "And of x^3?" ∧
    insertedRows (sendMessage "s1" "And of x^3?" .text none sendEnvAiFail chatW).2 = [] :=
  sendMessage_aiFailure_frame "s1" "And of x^3?" .text none sendEnvAiFail chatW rfl rfl

/-- C2: a `sendMessage` call whose content trims to empty with no image
present, or issued while the busy flag is set, is a no-op: the state is
returned unchanged and the effect trace is empty (no network call, no
insert, no toast). -/
theorem sendMessage_noop (sessionId content : String)
    (messageType : MessageType) (imageData : Option String)
    (env : SendEnv) (s : ChatState)
    (h : (jsTrim content = "" ∧ imageData = none) ∨ s.loading = true) :
    sendMessage sessionId content messageType imageData env s = (s, []) := by
  have hb : sendBlocked content imageData s.loading = true := by
    rcases h with ⟨h1, h2⟩ | h1 <;> simp [sendBlocked, h1]
    simp [h2]
  simp [sendMessage, hb]

/-- Witness for `sendMessage_noop` at a concrete blank input. -/
theorem sendMessage_noop_witness :
    sendMessage "s1" "   " .text none sendEnvOk chatW = (chatW, []) :=
  sendMessage_noop "s1" "   " .text none sendEnvOk chatW (Or.inl ⟨by decide, rfl⟩)

/-- C3 (amended): on a successful send, exactly one `chat_messages` row is
inserted; its content is the original content except that the exact empty
string (possible here only when an image was supplied) is replaced by the
placeholder "Image uploaded"; its `message_type` is the kind passed in and
its `ai_response` is the AI's returned reply, all in the same record.  A
whitespace-only caption is stored verbatim, not replaced. -/
theorem sendMessage_success_insert (sessionId content : String)
    (messageType : MessageType) (imageData : Option String)
    (env : SendEnv) (s : ChatState) (uid resp : String)
    (hload : s.loading = false)
    (hguard : ¬(jsTrim content = "" ∧ imageData = none))
    (hu : env.user = some uid) (hai : env.aiOutcome = .ok resp)
    (hins : env.insertOutcome = .ok ()) :
    insertedRows (sendMessage sessionId content messageType imageData env s).2
      = [{ session_id := sessionId, user_id := uid,
           content := if content = "" then "Image uploaded" else content,
           message_type := messageType, ai_response := resp }] := by
  have hb : sendBlocked content imageData s.loading = false := by
    rw [hload]; exact sendBlocked_false content imageData hguard
  unfold sendMessage
  rw [hb]
  simp only [Bool.false_eq_true, if_false, hu, hai, hins]
  rw [insertedRows_append, insertedRows_append, fetchMessages_no_insert]
  simp [insertedRows]

/-- Witness for `sendMessage_success_insert` at a concrete text send. -/
theorem sendMessage_success_insert_witness :
    insertedRows (sendMessage "s1" "And of x^3?" .text none sendEnvOk chatW).2
      = [{ session_id := "s1", user_id := "u1", content := "And of x^3?",
           message_type := .text, ai_response := "3x^2" }] := by
  have h := sendMessage_success_insert "s1" "And of x^3?" .text none sendEnvOk
    chatW "u1" "3x^2" rfl (by decide) rfl rfl rfl
  exact h

/-- C3 counterexample: a whitespace-only caption " " sent with an image is
blank (trims to empty) yet the inserted row stores " " itself, not the
placeholder "Image uploaded" the claim requires for blank content. -/
theorem sendMessage_blank_caption_cex :
    jsTrim " " = "" ∧
    insertedRows (sendMessage "s1" " " .image (some "b64") sendEnvOk chatW).2
      = [{ session_id := "s1", user_id := "u1", content := " ",
           message_type := .image, ai_response := "3x^2" }] ∧
    (" " : String) ≠ "Image uploaded" := by decide

/-- C4: once the `chat_messages` insert has succeeded, a failure of the
session-timestamp touch does not roll back the inserted row (the run's
outcome is identical to the fully successful run) and surfaces no error
notification (the only toast shown is the success toast). -/
theorem sendMessage_updateFailure_best_effort (sessionId content : String)
    (messageType : MessageType) (imageData : Option String)
    (env : SendEnv) (s : ChatState) (uid resp : String)
    (hload : s.loading = false)
    (hguard : ¬(jsTrim content = "" ∧ imageData = none))
    (hu : env.user = some uid) (hai : env.aiOutcome = .ok resp)
    (hins : env.insertOutcome = .ok ())
    (hupd : env.updateOutcome = .error ()) :
    insertedRows (sendMessage sessionId content messageType imageData env s).2
      = [{ session_id := sessionId, user_id := uid,
           content := if content = "" then "Image uploaded" else content,
           message_type := messageType, ai_response := resp }] ∧
    shownToasts (sendMessage sessionId content messageType imageData env s).2
      = [sendSuccessToast] ∧
    sendMessage sessionId content messageType imageData env s
      = sendMessage sessionId content messageType imageData
          { env with updateOutcome := .ok () } s := by
  refine ⟨sendMessage_success_insert sessionId content messageType imageData
    env s uid resp hload hguard hu hai hins, ?_, rfl⟩
  have hb : sendBlocked content imageData s.loading = false := by
    rw [hload]; exact sendBlocked_false content imageData hguard
  unfold sendMessage
  rw [hb]
  simp only [Bool.false_eq_true, if_false, hu, hai, hins]
  rw [shownToasts_append, shownToasts_append, fetchMessages_no_toast]
  simp [shownToasts]

/-- Witness for `sendMessage_updateFailure_best_effort` at a concrete send
whose timestamp update fails. -/
theorem sendMessage_updateFailure_best_effort_witness :
    insertedRows (sendMessage "s1" "And of x^3?" .text none sendEnvUpdFail chatW).2
      = [{ session_id := "s1", user_id := "u1", content := "And of x^3?",
           message_type := .text, ai_response := "3x^2" }] ∧
    shownToasts (sendMessage "s1" "And of x^3?" .text none sendEnvUpdFail chatW).2
      = [sendSuccessToast] ∧
    sendMessage "s1" "And of x^3?" .text none sendEnvUpdFail chatW
      = sendMessage "s1" "And of x^3?" .text none
          { sendEnvUpdFail with updateOutcome := .ok () } chatW := by
  have h := sendMessage_updateFailure_best_effort "s1" "And of x^3?" .text none
    sendEnvUpdFail chatW "u1" "3x^2" rfl (by decide) rfl rfl rfl rfl
  exact h

/-- C5 counterexample: one paste event carrying two images issues two
`sendMessage('', 'image', ...)` calls, both closing over the render-time
busy-flag value `false`; the first passes the guard and sets the busy flag,
yet the second also passes its guard — a second send starts while one is in
flight, refuting strict serialization across the image-paste entry point. -/
theorem paste_overlapping_sends_cex :
    handlePasteImage false
        [{ itemType := "image/png", fileData := some "imgA" },
         { itemType := "image/png", fileData := some "imgB" }]
      = [{ content := "", messageType := .image, imageData := some "imgA",
           observedLoading := false },
         { content := "", messageType := .image, imageData := some "imgB",
           observedLoading := false }] ∧
    (sendMessageStart false "" (some "imgA") chatW).2 = true ∧
    (sendMessageStart false "" (some "imgA") chatW).1.loading = true ∧
    (sendMessageStart false "" (some "imgB")
        (sendMessageStart false "" (some "imgA") chatW).1).2 = true := by decide

/-- C5 (amended): a send whose guard observes the current busy-flag value
cannot start while one is in flight — with the flag set, the synchronous
prefix of `sendMessage` declines to start and leaves the state unchanged.
Only the image-paste path, whose calls observe the stale render-time
snapshot of the flag, can start overlapping sends. -/
theorem sendMessageStart_busy (content : String) (imageData : Option String)
    (s : ChatState) (h : s.loading = true) :
    sendMessageStart s.loading content imageData s = (s, false) := by
  simp [sendMessageStart, sendBlocked, h]

/-- Witness for `sendMessageStart_busy` at a concrete busy state. -/
theorem sendMessageStart_busy_witness :
    sendMessageStart ({ chatW with loading := true } : ChatState).loading
        "Another question" none { chatW with loading := true }
      = ({ chatW with loading := true }, false) :=
  sendMessageStart_busy "Another question" none { chatW with loading := true } rfl

/-- C6: when the session name trims to empty, `createSession` shows the
validation toast and aborts: the state (in particular the session list) is
unchanged and the trace contains no network call. -/
theorem createSession_emptyName (env : CreateEnv) (s : DashState)
    (h : jsTrim s.sessionName = "") :
    createSession env s = (s, [.toast nameRequiredToast]) ∧
    (createSession env s).2.all (fun e => !e.isNetwork) = true ∧
    (createSession env s).1.sessions = s.sessions := by
  have he : createSession env s = (s, [.toast nameRequiredToast]) := by
    simp [createSession, h]
  refine ⟨he, ?_, ?_⟩ <;> rw [he] <;> rfl

/-- Witness for `createSession_emptyName` at a whitespace-only name. -/
theorem createSession_emptyName_witness :
    createSession createEnvOk { dashW with sessionName := "   " }
      = ({ dashW with sessionName := "   " }, [.toast nameRequiredToast]) ∧
    (createSession createEnvOk { dashW with sessionName := "   " }).2.all
        (fun e => !e.isNetwork) = true ∧
    (createSession createEnvOk { dashW with sessionName := "   " }).1.sessions
      = ({ dashW with sessionName := "   " } : DashState).sessions :=
  createSession_emptyName createEnvOk { dashW with sessionName := "   " } (by decide)

/-- On any `createSession` run that passes name validation and the auth
check, exactly one `sessions` row is inserted, carrying the name and the
instruction text verbatim from the form state. -/
theorem createSession_insert_row (env : CreateEnv) (s : DashState) (uid : String)
    (hname : jsTrim s.sessionName ≠ "") (hu : env.user = some uid) :
    insertedSessions (createSession env s).2
      = [{ name := s.sessionName, system_prompt := s.systemPrompt,
           user_id := uid }] := by
  have hb : (jsTrim s.sessionName == "") = false := by simp [hname]
  unfold createSession
  rw [hb]
  simp only [Bool.false_eq_true, if_false, hu]
  cases hi : env.insertOutcome with
  | error e => simp [insertedSessions]
  | ok u => cases hf : env.fetchOutcome <;> simp [fetchSessions, insertedSessions, hf]

/-- C7 (amended): the inserted Session row's instruction text is exactly the
instruction field's current value.  The fixed default boilerplate is stored
only because the field is initialized to it; a cleared (blank) instruction
is stored as the blank string, not replaced by the default. -/
theorem createSession_prompt_verbatim (env : CreateEnv) (s : DashState)
    (uid : String) (hname : jsTrim s.sessionName ≠ "")
    (hu : env.user = some uid) :
    (insertedSessions (createSession env s).2).map (fun r => r.system_prompt)
      = [s.systemPrompt] := by
  rw [createSession_insert_row env s uid hname hu]
  rfl

/-- Witness for `createSession_prompt_verbatim`: the untouched field stores
the default boilerplate. -/
theorem createSession_prompt_verbatim_witness :
    (insertedSessions (createSession createEnvOk dashW).2).map
        (fun r => r.system_prompt) = [defaultSystemPrompt] := by
  have h := createSession_prompt_verbatim createEnvOk dashW "u1" (by decide) rfl
  exact h

/-- C7 counterexample: with the instruction field cleared (the user supplied
a blank instruction), the inserted row stores the empty string, not the
fixed default boilerplate the claim requires. -/
theorem createSession_blankPrompt_cex :
    insertedSessions (createSession createEnvOk dashBlankPrompt).2
      = [{ name := "Algebra Review", system_prompt := "", user_id := "u1" }] ∧
    ("" : String) ≠ defaultSystemPrompt := by decide

/-- C8: a successful `fetchMessages` requests the session's messages with
the ascending-by-creation-time order flag and replaces the in-memory list
wholesale with the result, so a chronologically ordered result renders in
ascending creation order. -/
theorem fetchMessages_ascending_replace (sessionId : String) (env : SendEnv)
    (s : ChatState) (data : List Message) (h : env.fetchOutcome = .ok data) :
    fetchMessages sessionId env s
      = ({ s with messages := data }, [.selectChatMessages sessionId true]) ∧
    (chronological data →
      chronological (fetchMessages sessionId env s).1.messages) := by
  have he : fetchMessages sessionId env s
      = ({ s with messages := data }, [.selectChatMessages sessionId true]) := by
    simp [fetchMessages, h]
  refine ⟨he, fun hc => ?_⟩
  rw [he]
  exact hc

/-- Witness for `fetchMessages_ascending_replace` at a concrete fetch. -/
theorem fetchMessages_ascending_replace_witness :
    fetchMessages "s1" sendEnvOk chatW
      = ({ chatW with messages := [msgW, msgW2] },
         [.selectChatMessages "s1" true]) ∧
    (chronological [msgW, msgW2] →
      chronological (fetchMessages "s1" sendEnvOk chatW).1.messages) :=
  fetchMessages_ascending_replace "s1" sendEnvOk chatW [msgW, msgW2] rfl

/-- C9: a failed `fetchMessages` leaves the whole view state — in particular
the in-memory message list — unchanged, so the previously loaded transcript
keeps rendering. -/
theorem fetchMessages_failure_frame (sessionId : String) (env : SendEnv)
    (s : ChatState) (h : env.fetchOutcome = .error ()) :
    fetchMessages sessionId env s = (s, [.selectChatMessages sessionId true]) := by
  simp [fetchMessages, h]

/-- Witness for `fetchMessages_failure_frame` at a concrete failed fetch. -/
theorem fetchMessages_failure_frame_witness :
    fetchMessages "s1" sendEnvFetchFail chatW
      = (chatW, [.selectChatMessages "s1" true]) :=
  fetchMessages_failure_frame "s1" sendEnvFetchFail chatW rfl

/-- C10: for every name that trims non-empty, `createSession` inserts the
name exactly as entered, leading and trailing whitespace included — the
trim is applied only in the emptiness check, never to the inserted value. -/
theorem createSession_name_verbatim (env : CreateEnv) (s : DashState)
    (uid : String) (hname : jsTrim s.sessionName ≠ "")
    (hu : env.user = some uid) :
    (insertedSessions (createSession env s).2).map (fun r => r.name)
      = [s.sessionName] := by
  rw [createSession_insert_row env s uid hname hu]
  rfl

/-- Witness for `createSession_name_verbatim` at a whitespace-padded name. -/
theorem createSession_name_verbatim_witness :
    (insertedSessions (createSession createEnvOk dashPadded).2).map
        (fun r => r.name) = ["  Algebra  "] := by
  have h := createSession_name_verbatim createEnvOk dashPadded "u1" (by decide) rfl
  exact h
